import Mathlib

/-!
# Verification of the gateway request plane

A shallow embedding, in Lean 4, of the parts of the `gateway` service that
the specification's testable properties talk about: the deterministic
router (`app/router.py`), the model-alias registry (`app/model_aliases.py`),
the health gate (`app/health_checker.py`), the admission controller
(modelled from the spec, since `app/backends.py` is not part of the source
tree), the streaming translators (`app/streaming.py`, `app/upstreams.py`),
the tool bus (`app/tools_bus.py`) and the tool loop (`app/main.py`).

Conventions used throughout:
* Python dictionaries become association lists (`List (String × α)`),
  preserving insertion order like Python dicts do.
* JSON values become the `Json` inductive below; machine effects (HTTP
  calls, subprocesses, clocks, random ids) become explicit parameters.
* Python functions that raise `HTTPException` become functions into
  `Except HTTPError α`.
-/

set_option autoImplicit false

/-- A JSON value, as handled by the gateway (Python `json` module values).
Numbers are restricted to integers: none of the verified code paths
constructs fractional JSON numbers. -/
inductive Json where
  | null : Json
  | bool (b : Bool) : Json
  | num (n : Int) : Json
  | str (s : String) : Json
  | arr (xs : List Json) : Json
  | obj (kvs : List (String × Json)) : Json

/-- Keys of a JSON object (empty for non-objects), in insertion order. -/
def Json.keys : Json → List String
  | .obj kvs => kvs.map Prod.fst
  | _ => []

/-- Python `d.get(k)` on a JSON object: first binding wins. -/
def Json.get (j : Json) (k : String) : Option Json :=
  match j with
  | .obj kvs => kvs.lookup k
  | _ => none

/-- Whether the value is a JSON object (Python `isinstance(x, dict)`). -/
def Json.isObj : Json → Bool
  | .obj _ => true
  | _ => false

/-- Whether the value is a JSON string (Python `isinstance(x, str)`). -/
def Json.isStr : Json → Bool
  | .str _ => true
  | _ => false

/-- Python dict update `d[k] = v`: replace in place if the key exists,
append otherwise (Python dicts keep insertion order). -/
def dictInsert {κ α : Type} [DecidableEq κ] (k : κ) (v : α) : List (κ × α) → List (κ × α)
  | [] => [(k, v)]
  | (k0, v0) :: rest =>
      if k0 = k then (k0, v) :: rest else (k0, v0) :: dictInsert k v rest

theorem mem_keys_dictInsert {κ α : Type} [DecidableEq κ] (k k0 : κ) (v : α) (l : List (κ × α)) :
    k0 ∈ (dictInsert k v l).map Prod.fst ↔ k0 = k ∨ k0 ∈ l.map Prod.fst := by
  induction l with
  | nil => simp [dictInsert]
  | cons hd tl ih =>
      obtain ⟨a, b⟩ := hd
      by_cases hk : a = k
      · subst hk
        simp [dictInsert]
      · simp [dictInsert, hk, ih]
        tauto

/-! ## Python string normalization (`str.strip`, `str.lower`)

Modelled character-by-character over the ASCII letters (the identifiers
the gateway normalizes are backend names, alias keys and header values),
so that idempotence of the normalization is provable. -/

/-- Upper-to-lower ASCII case table. -/
def upperLowerTbl : List (Char × Char) :=
  [('A','a'), ('B','b'), ('C','c'), ('D','d'), ('E','e'), ('F','f'), ('G','g'),
   ('H','h'), ('I','i'), ('J','j'), ('K','k'), ('L','l'), ('M','m'), ('N','n'),
   ('O','o'), ('P','p'), ('Q','q'), ('R','r'), ('S','s'), ('T','t'), ('U','u'),
   ('V','v'), ('W','w'), ('X','x'), ('Y','y'), ('Z','z')]

/-- Lookup in a character table. -/
def tblLookup : List (Char × Char) → Char → Option Char
  | [], _ => none
  | (a, b) :: rest, c => if c = a then some b else tblLookup rest c

/-- Python `str.lower` on one character (ASCII). -/
def lowerChar (c : Char) : Char :=
  (tblLookup upperLowerTbl c).getD c

/-- Whitespace stripped by Python `str.strip()`. -/
def isPySpace (c : Char) : Bool :=
  c = ' ' || c = '\t' || c = '\n' || c = '\r' || c = '\x0b' || c = '\x0c'

/-- Python `str.strip()` over a character list. -/
def stripL (l : List Char) : List Char :=
  ((l.dropWhile isPySpace).reverse.dropWhile isPySpace).reverse

/-- Python `s.lower()`. -/
def pyLower (s : String) : String :=
  ⟨s.data.map lowerChar⟩

/-- Python `s.strip()`. -/
def pyStrip (s : String) : String :=
  ⟨stripL s.data⟩

/-- Python `s.strip().lower()`, the gateway's key/model normalization. -/
def pyNorm (s : String) : String :=
  pyLower (pyStrip s)

theorem tblLookup_mem (l : List (Char × Char)) (c d : Char) (h : tblLookup l c = some d) :
    (c, d) ∈ l := by
  induction l with
  | nil => simp [tblLookup] at h
  | cons hd tl ih =>
      obtain ⟨a, b⟩ := hd
      by_cases hc : c = a
      · simp [tblLookup, hc] at h
        simp [hc, h]
      · simp [tblLookup, hc] at h
        exact List.mem_cons_of_mem _ (ih h)

theorem tbl_snd_lookup_none : ∀ p ∈ upperLowerTbl, tblLookup upperLowerTbl p.2 = none := by
  decide

theorem tbl_no_space : ∀ p ∈ upperLowerTbl, isPySpace p.1 = false ∧ isPySpace p.2 = false := by
  decide

theorem lowerChar_lowerChar (c : Char) : lowerChar (lowerChar c) = lowerChar c := by
  unfold lowerChar
  cases h : tblLookup upperLowerTbl c with
  | none => simp [h]
  | some d =>
      have hm := tblLookup_mem _ _ _ h
      have hn := tbl_snd_lookup_none (c, d) hm
      simp at hn
      simp [h, hn]

theorem isPySpace_lowerChar (c : Char) : isPySpace (lowerChar c) = isPySpace c := by
  unfold lowerChar
  cases h : tblLookup upperLowerTbl c with
  | none => simp [h]
  | some d =>
      have hm := tblLookup_mem _ _ _ h
      have h2 := tbl_no_space (c, d) hm
      simp at h2
      simp [h, h2.1, h2.2]

theorem dropWhile_dropWhile (p : Char → Bool) (l : List Char) :
    List.dropWhile p (List.dropWhile p l) = List.dropWhile p l := by
  induction l with
  | nil => rfl
  | cons c cs ih =>
      by_cases h : p c
      · simp [List.dropWhile_cons, h, ih]
      · simp [List.dropWhile_cons, h]

theorem dropWhile_eq_cons_false (p : Char → Bool) (l : List Char) (c : Char)
    (rest : List Char) (h : List.dropWhile p l = c :: rest) : p c = false := by
  induction l with
  | nil => simp at h
  | cons a as ih =>
      by_cases hp : p a
      · rw [List.dropWhile_cons, if_pos hp] at h
        exact ih h
      · rw [List.dropWhile_cons, if_neg hp] at h
        cases h
        simpa using hp

theorem dropWhile_of_head_false (p : Char → Bool) (l : List Char)
    (h : ∀ c rest, l = c :: rest → p c = false) : List.dropWhile p l = l := by
  cases l with
  | nil => rfl
  | cons c cs => simp [List.dropWhile_cons, h c cs rfl]

theorem stripL_head_false (l : List Char) (c : Char) (rest : List Char)
    (h : stripL l = c :: rest) : isPySpace c = false := by
  unfold stripL at h
  have hsuf : List.dropWhile isPySpace (List.dropWhile isPySpace l).reverse <:+
      (List.dropWhile isPySpace l).reverse := List.dropWhile_suffix _
  have hpre := List.reverse_prefix.mpr hsuf
  rw [List.reverse_reverse] at hpre
  rw [h] at hpre
  obtain ⟨t, ht⟩ := hpre
  have heq : List.dropWhile isPySpace l = c :: (rest ++ t) := by
    rw [← ht]
    rfl
  exact dropWhile_eq_cons_false isPySpace l c (rest ++ t) heq

theorem stripL_noLead (l : List Char) :
    List.dropWhile isPySpace (stripL l) = stripL l :=
  dropWhile_of_head_false isPySpace (stripL l) (fun c rest h => stripL_head_false l c rest h)

theorem stripL_noTrail (l : List Char) :
    List.dropWhile isPySpace (stripL l).reverse = (stripL l).reverse := by
  unfold stripL
  rw [List.reverse_reverse]
  exact dropWhile_dropWhile _ _

theorem stripL_idem (l : List Char) : stripL (stripL l) = stripL l :=
  calc stripL (stripL l)
      = ((List.dropWhile isPySpace (stripL l)).reverse.dropWhile isPySpace).reverse := rfl
    _ = ((stripL l).reverse.dropWhile isPySpace).reverse := by rw [stripL_noLead]
    _ = ((stripL l).reverse).reverse := by rw [stripL_noTrail]
    _ = stripL l := List.reverse_reverse _

theorem stripL_map_lower (m : List Char) :
    stripL (m.map lowerChar) = (stripL m).map lowerChar := by
  have hpf : isPySpace ∘ lowerChar = isPySpace := funext isPySpace_lowerChar
  unfold stripL
  rw [List.dropWhile_map, hpf, ← List.map_reverse, List.dropWhile_map, hpf,
    ← List.map_reverse]

theorem pyNorm_idem (s : String) : pyNorm (pyNorm s) = pyNorm s := by
  have hff : lowerChar ∘ lowerChar = lowerChar := funext lowerChar_lowerChar
  show pyLower (pyStrip (pyLower (pyStrip s))) = pyLower (pyStrip s)
  unfold pyLower pyStrip
  congr 1
  show ((stripL ((stripL s.data).map lowerChar)).map lowerChar)
      = (stripL s.data).map lowerChar
  rw [stripL_map_lower, stripL_idem, List.map_map, hff]

/-! ## A JSON encoder (Python `json.dumps(..., separators=(",", ":"))`)

Used by the SSE framing helpers and by the router's size estimation. -/

/-- Escape one character inside a JSON string literal. -/
def escChar (c : Char) : String :=
  if c = '"' then "\\\""
  else if c = '\\' then "\\\\"
  else if c = '\n' then "\\n"
  else if c = '\t' then "\\t"
  else if c = '\r' then "\\r"
  else if c.toNat < 32 then
    "\\u00" ++ String.mk [Nat.digitChar (c.toNat / 16), Nat.digitChar (c.toNat % 16)]
  else String.mk [c]

/-- A JSON string literal with quotes. -/
def quoteStr (s : String) : String :=
  "\"" ++ String.join (s.data.map escChar) ++ "\""

/-- Comma-join pre-rendered items. -/
def joinComma : List String → String
  | [] => ""
  | [x] => x
  | x :: rest => x ++ "," ++ joinComma rest

/-- Compact JSON rendering. -/
def Json.enc : Json → String
  | Json.null => "null"
  | Json.bool b => cond b "true" "false"
  | Json.num n => toString n
  | Json.str s => quoteStr s
  | Json.arr xs => "[" ++ joinComma (xs.attach.map (fun x => Json.enc x.1)) ++ "]"
  | Json.obj kvs =>
      "\x7b" ++ joinComma (kvs.attach.map (fun kv => quoteStr kv.1.1 ++ ":" ++ Json.enc kv.1.2)) ++ "\x7d"
decreasing_by
  · have := List.sizeOf_lt_of_mem x.2
    simp only [Json.arr.sizeOf_spec]
    omega
  · have := List.sizeOf_lt_of_mem kv.2
    have h2 : sizeOf kv.1.2 < sizeOf kv.1 := by
      obtain ⟨⟨a, b⟩, hm⟩ := kv
      simp
    simp only [Json.obj.sizeOf_spec]
    omega

/-! ## Substring search and counting (kernel-reducible) -/

/-- Whether `p` is a prefix of `s` (over characters). -/
def isPrefixL : List Char → List Char → Bool
  | [], _ => true
  | _ :: _, [] => false
  | a :: as, b :: bs => a = b && isPrefixL as bs

/-- Whether `p` occurs somewhere in `s`. -/
def containsL (p : List Char) : List Char → Bool
  | [] => isPrefixL p []
  | c :: rest => isPrefixL p (c :: rest) || containsL p rest

/-- Number of positions of `s` at which `p` occurs. -/
def occurCount (p : List Char) : List Char → Nat
  | [] => if isPrefixL p [] = true then 1 else 0
  | c :: rest => (if isPrefixL p (c :: rest) = true then 1 else 0) + occurCount p rest

/-- Python `s.startswith(p)`. -/
def pyStartswith (s p : String) : Bool := isPrefixL p.data s.data

/-- Python `p in s` (substring). -/
def strContainsSub (s p : String) : Bool := containsL p.data s.data

/-- Number of occurrences of `p` inside `s`. -/
def strCount (s p : String) : Nat := occurCount p.data s.data

/-- Python `s.endswith(p)`. -/
def strEndsWith (s p : String) : Bool := isPrefixL p.data.reverse s.data.reverse

/-- Python `s[:n]` / `l[:n]` over characters. -/
def strTake (s : String) (n : Nat) : String := ⟨s.data.take n⟩

/-- Python `s[n:]` over characters. -/
def strDrop (s : String) (n : Nat) : String := ⟨s.data.drop n⟩

/-- Python `l[-n:]`: the last `n` elements. -/
def takeLast {α : Type} (n : Nat) (l : List α) : List α := (l.reverse.take n).reverse

/-! ## SSE framing (`app/main.py` `_sse`/`_sse_done`, `app/openai_utils.py`) -/

/-- Model of `_sse(obj)`: one SSE data frame around compact JSON. -/
def sse (j : Json) : String := "data: " ++ Json.enc j ++ "\n\n"

/-- Model of `_sse_done()`: the stream terminator frame. -/
def sseDone : String := "data: [DONE]\n\n"

/-! ## Streaming translators

`stream_mlx_openai_chat` (`app/upstreams.py` and `app/main.py`, identical
code) forwards upstream SSE bytes unchanged and, only if the HTTP call
fails, emits one error frame followed by the terminator.
`passthrough_sse` (`app/streaming.py`) forwards bytes while watching a
64-byte sliding tail for the upstream's own terminator and appends one if
the upstream ended without it.

An upstream byte stream is modelled as the list of chunks delivered
followed by how it ended. -/

/-- How an upstream HTTP stream ends. -/
inductive UpEnd where
  | clean : UpEnd
  | statusError (status : Nat) (body : String) : UpEnd
  | requestError (msg : String) : UpEnd

/-- The error SSE payload built by `stream_mlx_openai_chat`'s handlers. -/
def mlxErrorDetail : UpEnd → Json
  | .clean => Json.null
  | .statusError status body =>
      Json.obj [("upstream", Json.str "mlx"), ("status", Json.num status),
        ("body", Json.str (strTake body 5000))]
  | .requestError msg =>
      Json.obj [("upstream", Json.str "mlx"), ("error", Json.str msg)]

/-- The full error frame object built around the detail. -/
def mlxErrorFrame (e : UpEnd) : Json :=
  Json.obj [("error", Json.obj
    [("message", Json.str "Upstream error"), ("type", Json.str "upstream_error"),
     ("param", Json.null), ("code", Json.null), ("detail", mlxErrorDetail e)])]

/-- Model of `stream_mlx_openai_chat(payload)`: forward non-empty chunks; on an
`httpx` error, emit one error frame and the terminator. On a clean
upstream end nothing further is emitted. -/
def stream_mlx_openai_chat (chunks : List String) (e : UpEnd) : List String :=
  let forwarded := chunks.filter (fun c => c ≠ "")
  match e with
  | .clean => forwarded
  | e => forwarded ++ [sse (mlxErrorFrame e), sseDone]

/-- The loop body of `passthrough_sse`: threads the sliding 64-byte tail and
the `done_seen` flag over the chunks, returning the yielded output and the
final flag. -/
def passthroughGo (tail : List Char) (seen : Bool) : List String → List String × Bool
  | [] => ([], seen)
  | c :: rest =>
      if c = "" then passthroughGo tail seen rest
      else
        let hay := tail ++ c.data
        let seen := seen || containsL "data: [DONE]".data hay
        let r := passthroughGo (takeLast 64 hay) seen rest
        (c :: r.1, r.2)

/-- Model of `passthrough_sse(resp)` (`app/streaming.py`): forward chunks, then append
the terminator if no `data: [DONE]` was observed. -/
def passthrough_sse (chunks : List String) : List String :=
  let r := passthroughGo [] false chunks
  r.1 ++ (if r.2 then [] else [sseDone])

/-- Concatenation of a chunk stream into the byte sequence on the wire. -/
def streamBytes (chunks : List String) : String := String.join chunks

/-- C1. For every streamed chat/completions response, the emitted bytes end
with `data: [DONE]\n\n` exactly once. This fails on the wired OpenAI-style
passthrough (`stream_mlx_openai_chat`, used by `/v1/chat/completions` for
the mlx backend): when the upstream body ends cleanly without its own done
marker (here a single data frame then EOF), no terminator is emitted at
all, while the unused translator helper `passthrough_sse`
(`app/streaming.py`) appends exactly one on the same upstream trace. -/
theorem mlx_stream_misses_terminator :
    stream_mlx_openai_chat ["data: hello\n\n"] UpEnd.clean = ["data: hello\n\n"]
    ∧ strCount (streamBytes (stream_mlx_openai_chat ["data: hello\n\n"] UpEnd.clean)) sseDone = 0
    ∧ strEndsWith (streamBytes (stream_mlx_openai_chat ["data: hello\n\n"] UpEnd.clean)) sseDone = false
    ∧ passthrough_sse ["data: hello\n\n"] = ["data: hello\n\n", sseDone]
    ∧ strCount (streamBytes (passthrough_sse ["data: hello\n\n"])) sseDone = 1
    ∧ strEndsWith (streamBytes (passthrough_sse ["data: hello\n\n"])) sseDone = true := by
  refine ⟨by decide, by decide, by decide, by decide, by decide, by decide⟩

/-! ## The router (`app/router.py`) -/

/-- The two chat backends. -/
inductive Backend where
  | ollama : Backend
  | mlx : Backend
  deriving DecidableEq, Repr

/-- Structure `RouterConfig` (`app/router.py`). -/
structure RouterConfig where
  default_backend : Backend
  ollama_strong_model : String
  ollama_fast_model : String
  mlx_strong_model : String
  mlx_fast_model : String
  long_context_chars_threshold : Nat := 40000
  deriving DecidableEq, Repr

/-- Structure `ModelAlias` (`app/model_aliases.py`); `context_window` is `Optional[int]`
in Python; only non-negative values are ever stored. -/
structure ModelAlias where
  backend : Backend
  upstream_model : String
  context_window : Option Nat := none
  tools : Option Bool := none
  deriving DecidableEq, Repr

/-- Structure `RouteDecision` (`app/router.py`). -/
structure RouteDecision where
  backend : Backend
  model : String
  reason : String
  deriving DecidableEq, Repr

/-- The alias table built by `load_aliases` and cached by `get_aliases`. -/
def AliasTable : Type := List (String × ModelAlias)

/-- Model of `get_alias(name)` (`app/model_aliases.py`): normalize the key, empty
keys miss. -/
def get_alias (aliases : AliasTable) (name : String) : Option ModelAlias :=
  let k := pyNorm name
  if k = "" then none else List.lookup k aliases

/-- Content sizing of `_approx_text_size`: string content counts its characters, `None`
content counts zero, any other JSON content counts its serialized length. -/
def contentSize : Option Json → Nat
  | none => 0
  | some (Json.str s) => s.length
  | some Json.null => 0
  | some j => (Json.enc j).length

/-- Model of `_approx_text_size(messages)` (`app/router.py`). -/
def approx_text_size (messages : List Json) : Nat :=
  (messages.map (fun m => contentSize (m.get "content"))).sum

/-- Model of `_choose_backend_by_model(model, default_backend)` (`app/router.py`). -/
def choose_backend_by_model (model : String) (default_backend : Backend) : Backend :=
  let m := pyNorm model
  if pyStartswith m "ollama:" then Backend.ollama
  else if pyStartswith m "mlx:" then Backend.mlx
  else if m = "ollama" ∨ m = "ollama-default" then Backend.ollama
  else if m = "mlx" ∨ m = "mlx-default" then Backend.mlx
  else default_backend

/-- Model of `_normalize_model(model, backend, cfg)` (`app/router.py`): strip the
backend prefix, then map the default sentinels to the strong model. -/
def normalize_model (model : String) (backend : Backend) (cfg : RouterConfig) : String :=
  let m := pyStrip model
  match backend with
  | Backend.ollama =>
      let m := if pyStartswith m "ollama:" then strDrop m 7 else m
      if m = "default" ∨ m = "ollama" ∨ m = "" then cfg.ollama_strong_model else m
  | Backend.mlx =>
      let m := if pyStartswith m "mlx:" then strDrop m 4 else m
      if m = "default" ∨ m = "mlx" ∨ m = "" then cfg.mlx_strong_model else m

/-- The strong model of a backend (`cfg.*_strong_model`). -/
def strongFor (cfg : RouterConfig) : Backend → String
  | Backend.ollama => cfg.ollama_strong_model
  | Backend.mlx => cfg.mlx_strong_model

/-- The fast model of a backend (`cfg.*_fast_model`). -/
def fastFor (cfg : RouterConfig) : Backend → String
  | Backend.ollama => cfg.ollama_fast_model
  | Backend.mlx => cfg.mlx_fast_model

/-- The long-context threshold of `decide_route`: the `long` alias's
`context_window` when present and non-zero, else the configured default. -/
def long_context_threshold (cfg : RouterConfig) (aliases : AliasTable) : Nat :=
  match get_alias aliases "long" with
  | some a =>
      match a.context_window with
      | some n => if n ≠ 0 then n else cfg.long_context_chars_threshold
      | none => cfg.long_context_chars_threshold
  | none => cfg.long_context_chars_threshold

/-- Model of `decide_route(...)` (`app/router.py`), with the process-wide alias table
(`get_aliases()`) passed explicitly. Ordered rules: `x-backend` header
override, alias hit, explicit pin, then the tools / long-context / fast
policy tail. -/
def decide_route (cfg : RouterConfig) (aliases : AliasTable) (request_model : String)
    (headers : List (String × String)) (messages : List Json) (has_tools : Bool) :
    RouteDecision :=
  let hdr_backend := pyNorm ((List.lookup "x-backend" headers).getD "")
  if hdr_backend = "ollama" then
    ⟨Backend.ollama, normalize_model request_model Backend.ollama cfg, "override:x-backend"⟩
  else if hdr_backend = "mlx" then
    ⟨Backend.mlx, normalize_model request_model Backend.mlx cfg, "override:x-backend"⟩
  else
    let alias_key := pyNorm request_model
    match (if alias_key = "" then none else List.lookup alias_key aliases) with
    | some a =>
        ⟨a.backend, normalize_model a.upstream_model a.backend cfg, "alias:model"⟩
    | none =>
        let backend := choose_backend_by_model request_model cfg.default_backend
        let mlow := pyNorm request_model
        let pinned := pyStartswith mlow "ollama:" || pyStartswith mlow "mlx:" ||
          mlow = "ollama" || mlow = "mlx" || mlow = "ollama-default" || mlow = "mlx-default"
        if pinned then
          ⟨backend, normalize_model request_model backend cfg, "pinned:model"⟩
        else
          let size := approx_text_size messages
          let long_threshold := long_context_threshold cfg aliases
          if has_tools then
            match get_alias aliases "default" with
            | some a =>
                if a.tools ≠ some false then
                  ⟨a.backend, normalize_model a.upstream_model a.backend cfg,
                    "policy:tools->alias:default"⟩
                else
                  match get_alias aliases "coder" with
                  | some a2 =>
                      if a2.tools ≠ some false then
                        ⟨a2.backend, normalize_model a2.upstream_model a2.backend cfg,
                          "policy:tools->alias:coder"⟩
                      else
                        ⟨backend, strongFor cfg backend, "policy:tools->strong"⟩
                  | none => ⟨backend, strongFor cfg backend, "policy:tools->strong"⟩
            | none =>
                match get_alias aliases "coder" with
                | some a2 =>
                    if a2.tools ≠ some false then
                      ⟨a2.backend, normalize_model a2.upstream_model a2.backend cfg,
                        "policy:tools->alias:coder"⟩
                    else
                      ⟨backend, strongFor cfg backend, "policy:tools->strong"⟩
                | none => ⟨backend, strongFor cfg backend, "policy:tools->strong"⟩
          else if long_threshold ≤ size then
            match get_alias aliases "long" with
            | some a =>
                ⟨a.backend, normalize_model a.upstream_model a.backend cfg,
                  "policy:long_context->alias:long"⟩
            | none =>
                if cfg.mlx_strong_model ≠ "" then
                  ⟨Backend.mlx, cfg.mlx_strong_model, "policy:long_context->mlx"⟩
                else
                  ⟨backend, strongFor cfg backend, "policy:long_context->strong"⟩
          else
            match get_alias aliases "fast" with
            | some a =>
                ⟨a.backend, normalize_model a.upstream_model a.backend cfg,
                  "policy:fast->alias:fast"⟩
            | none => ⟨backend, fastFor cfg backend, "policy:fast"⟩

/-! ## The model-alias registry (`app/model_aliases.py`)

`load_aliases` starts from the reserved defaults and merges the parsed
payload (env JSON or file) on top. Parsing a JSON value that is neither a
string nor an object yields no alias; inside an object, a truthy
non-string `backend`/`model` value makes Python raise (`.strip()` on a
non-string), which the embedding surfaces as `Except.error`. -/

/-- The slice of `Settings` (`app/config.py`) consumed by the alias
registry, the router and the tool bus. -/
structure Settings where
  DEFAULT_BACKEND : Backend := Backend.ollama
  OLLAMA_MODEL_STRONG : String := "qwen2.5:32b"
  OLLAMA_MODEL_FAST : String := "qwen2.5:7b"
  MLX_MODEL_STRONG : String := "mlx-community/gemma-2-2b-it-8bit"
  MLX_MODEL_FAST : String := "mlx-community/gemma-2-2b-it-8bit"
  ROUTER_LONG_CONTEXT_CHARS : Nat := 40000
  TOOLS_ALLOW_SHELL : Bool := false
  TOOLS_ALLOW_FS : Bool := false
  TOOLS_ALLOW_HTTP_FETCH : Bool := false
  TOOLS_ALLOW_GIT : Bool := false
  TOOLS_ALLOWLIST : String := ""

/-- Helper `strong_for(backend)` inside `_default_aliases`. -/
def alias_strong_for (s : Settings) : Backend → String
  | Backend.ollama => s.OLLAMA_MODEL_STRONG
  | Backend.mlx => s.MLX_MODEL_STRONG

/-- Helper `fast_for(backend)` inside `_default_aliases`. -/
def alias_fast_for (s : Settings) : Backend → String
  | Backend.ollama => s.OLLAMA_MODEL_FAST
  | Backend.mlx => s.MLX_MODEL_FAST

/-- Model of `_default_aliases()`: the four reserved aliases. -/
def default_aliases (s : Settings) : AliasTable :=
  [("default", ⟨s.DEFAULT_BACKEND, alias_strong_for s s.DEFAULT_BACKEND, none, some true⟩),
   ("fast", ⟨s.DEFAULT_BACKEND, alias_fast_for s s.DEFAULT_BACKEND, none, some false⟩),
   ("coder", ⟨Backend.ollama, s.OLLAMA_MODEL_STRONG, none, some true⟩),
   ("long", ⟨Backend.mlx, s.MLX_MODEL_STRONG, some s.ROUTER_LONG_CONTEXT_CHARS, some false⟩)]

/-- Python truthiness of a JSON value. -/
def jsonTruthy : Json → Bool
  | Json.null => false
  | Json.bool b => b
  | Json.num n => n ≠ 0
  | Json.str s => s ≠ ""
  | Json.arr xs => ¬xs.isEmpty
  | Json.obj kvs => ¬kvs.isEmpty

/-- Python `x or y`. -/
def pyOr (x y : Option Json) : Option Json :=
  match x with
  | some v => if jsonTruthy v then some v else y
  | none => y

/-- Python `(x or "").strip()` where the code then treats `x` as a string:
falsy values become `""`; a truthy non-string raises `AttributeError`. -/
def pyAsStr (x : Option Json) : Except Unit String :=
  match x with
  | none => Except.ok ""
  | some (Json.str s) => Except.ok s
  | some v => if jsonTruthy v then Except.error () else Except.ok ""

/-- Model of `_parse_alias_value(v)` (`app/model_aliases.py`). -/
def parse_alias_value (v : Json) : Except Unit (Option ModelAlias) :=
  match v with
  | Json.str sv =>
      let t := pyStrip sv
      if t = "" then Except.ok none
      else if pyStartswith t "ollama:" then
        Except.ok (some ⟨Backend.ollama, strDrop t 7, none, none⟩)
      else if pyStartswith t "mlx:" then
        Except.ok (some ⟨Backend.mlx, strDrop t 4, none, none⟩)
      else Except.ok none
  | Json.obj kvs =>
      let v := Json.obj kvs
      match pyAsStr (v.get "backend"), pyAsStr (pyOr (v.get "model") (v.get "upstream_model")) with
      | Except.ok braw, Except.ok mraw =>
          let backend := pyNorm braw
          let model := pyStrip mraw
          if (backend = "ollama" ∨ backend = "mlx") ∧ model ≠ "" then
            let b := if backend = "ollama" then Backend.ollama else Backend.mlx
            let model :=
              if pyStartswith model "ollama:" then strDrop model 7
              else if pyStartswith model "mlx:" then strDrop model 4
              else model
            let context := pyOr (v.get "context") (pyOr (v.get "context_window") (v.get "window"))
            let context_window : Option Nat :=
              match context with
              | some (Json.num n) => if 0 < n then some n.toNat else none
              | _ => none
            let tools : Option Bool :=
              match v.get "tools" with
              | some (Json.bool b) => some b
              | _ => none
            Except.ok (some ⟨b, model, context_window, tools⟩)
          else Except.ok none
      | _, _ => Except.error ()
  | _ => Except.ok none

/-- The merge loop of `load_aliases`: `aliases[k.strip().lower()] = parsed`. -/
def mergeAliases (acc : AliasTable) : List (String × Json) → Except Unit AliasTable
  | [] => Except.ok acc
  | (k, v) :: rest =>
      match parse_alias_value v with
      | Except.error _ => Except.error ()
      | Except.ok none => mergeAliases acc rest
      | Except.ok (some a) => mergeAliases (dictInsert (pyNorm k) a acc) rest

/-- Model of `load_aliases()` (`app/model_aliases.py`): `payload` is the parse result
of `MODEL_ALIASES_JSON` or the aliases file (`none` when absent or
malformed); an `{"aliases": {...}}` wrapper is unwrapped; non-object
payloads leave the defaults untouched. -/
def load_aliases (s : Settings) (payload : Option Json) : Except Unit AliasTable :=
  let payload :=
    match payload with
    | some p =>
        if p.isObj then
          match p.get "aliases" with
          | some a => if a.isObj then some a else some p
          | none => some p
        else some p
    | none => none
  match payload with
  | some (Json.obj kvs) => mergeAliases (default_aliases s) kvs
  | _ => Except.ok (default_aliases s)

/-- The table invariant for C9: the reserved keys are present and every
key is fixed under Python's `strip().lower()` normalization. -/
def aliasTableInv (t : AliasTable) : Prop :=
  ("default" ∈ t.map Prod.fst ∧ "fast" ∈ t.map Prod.fst ∧
   "coder" ∈ t.map Prod.fst ∧ "long" ∈ t.map Prod.fst) ∧
  ∀ k ∈ t.map Prod.fst, pyNorm k = k

theorem aliasTableInv_default (s : Settings) : aliasTableInv (default_aliases s) := by
  constructor
  · refine ⟨?_, ?_, ?_, ?_⟩ <;> simp [default_aliases]
  · intro k hk
    simp [default_aliases] at hk
    rcases hk with h | h | h | h <;> subst h <;> decide

theorem aliasTableInv_dictInsert (k : String) (a : ModelAlias) (t : AliasTable)
    (h : aliasTableInv t) : aliasTableInv (dictInsert (pyNorm k) a t) := by
  obtain ⟨⟨h1, h2, h3, h4⟩, hnorm⟩ := h
  refine ⟨⟨?_, ?_, ?_, ?_⟩, ?_⟩
  · exact (mem_keys_dictInsert _ _ _ _).mpr (Or.inr h1)
  · exact (mem_keys_dictInsert _ _ _ _).mpr (Or.inr h2)
  · exact (mem_keys_dictInsert _ _ _ _).mpr (Or.inr h3)
  · exact (mem_keys_dictInsert _ _ _ _).mpr (Or.inr h4)
  · intro k0 hk0
    rcases (mem_keys_dictInsert _ _ _ _).mp hk0 with h | h
    · subst h
      exact pyNorm_idem k
    · exact hnorm k0 h

theorem mergeAliases_inv (kvs : List (String × Json)) :
    ∀ (acc t : AliasTable), aliasTableInv acc → mergeAliases acc kvs = Except.ok t →
      aliasTableInv t := by
  induction kvs with
  | nil =>
      intro acc t hacc hok
      simp [mergeAliases] at hok
      exact hok ▸ hacc
  | cons hd rest ih =>
      intro acc t hacc hok
      obtain ⟨k, v⟩ := hd
      unfold mergeAliases at hok
      cases hp : parse_alias_value v with
      | error e => rw [hp] at hok; exact absurd hok (by simp)
      | ok o =>
          rw [hp] at hok
          cases o with
          | none => exact ih acc t hacc hok
          | some a => exact ih _ t (aliasTableInv_dictInsert k a acc hacc) hok

/-- C9. For every alias configuration payload (absent, malformed, or any
parsed JSON), whenever `load_aliases` returns a table, that table contains
the four reserved keys `default`, `fast`, `coder`, `long`, and every key
is fixed under Python's `strip().lower()` normalization, so lookup by the
normalized request model finds every configured name. -/
theorem load_aliases_reserved_and_normalized (s : Settings) (payload : Option Json)
    (t : AliasTable) (h : load_aliases s payload = Except.ok t) :
    ("default" ∈ t.map Prod.fst ∧ "fast" ∈ t.map Prod.fst ∧
     "coder" ∈ t.map Prod.fst ∧ "long" ∈ t.map Prod.fst) ∧
    ∀ k ∈ t.map Prod.fst, pyNorm k = k := by
  unfold load_aliases at h
  have hd := aliasTableInv_default s
  cases payload with
  | none => simp at h; exact h ▸ hd
  | some p =>
      rcases p with _ | b | n | sv | xs | kvs
      · simp [Json.isObj] at h; exact h ▸ hd
      · simp [Json.isObj] at h; exact h ▸ hd
      · simp [Json.isObj] at h; exact h ▸ hd
      · simp [Json.isObj] at h; exact h ▸ hd
      · simp [Json.isObj] at h; exact h ▸ hd
      · simp only [Json.isObj, if_pos] at h
        cases hg : (Json.obj kvs).get "aliases" with
        | none =>
            rw [hg] at h
            simp at h
            exact mergeAliases_inv kvs _ t hd h
        | some a =>
            rw [hg] at h
            cases a with
            | obj kvs2 =>
                simp [Json.isObj] at h
                exact mergeAliases_inv kvs2 _ t hd h
            | null =>
                simp [Json.isObj] at h
                exact mergeAliases_inv kvs _ t hd h
            | bool b =>
                simp [Json.isObj] at h
                exact mergeAliases_inv kvs _ t hd h
            | num n =>
                simp [Json.isObj] at h
                exact mergeAliases_inv kvs _ t hd h
            | str s2 =>
                simp [Json.isObj] at h
                exact mergeAliases_inv kvs _ t hd h
            | arr xs2 =>
                simp [Json.isObj] at h
                exact mergeAliases_inv kvs _ t hd h

/-- Witness for C9 at a concrete input: an absent payload loads the default
table, which satisfies the reserved-keys and normalization properties. -/
theorem load_aliases_reserved_and_normalized_witness :
    load_aliases {} none = Except.ok (default_aliases {})
    ∧ (("default" ∈ (default_aliases {}).map Prod.fst ∧
        "fast" ∈ (default_aliases {}).map Prod.fst ∧
        "coder" ∈ (default_aliases {}).map Prod.fst ∧
        "long" ∈ (default_aliases {}).map Prod.fst) ∧
       ∀ k ∈ (default_aliases {}).map Prod.fst, pyNorm k = k) :=
  ⟨rfl, load_aliases_reserved_and_normalized {} none (default_aliases {}) rfl⟩

/-- Model of `_router_cfg()` (`app/main.py`): project `Settings` onto `RouterConfig`. -/
def router_cfg (s : Settings) : RouterConfig :=
  ⟨s.DEFAULT_BACKEND, s.OLLAMA_MODEL_STRONG, s.OLLAMA_MODEL_FAST,
   s.MLX_MODEL_STRONG, s.MLX_MODEL_FAST, s.ROUTER_LONG_CONTEXT_CHARS⟩

/-- Modelled from the spec: the model normalization of the router's
`direct:model` rule (spec §4.5 rule 4). "The sentinel `auto` maps to
backend default's strong model (no forwarding of `auto`)"; other models
pass through the source's `_normalize_model`. -/
def direct_normalize (model : String) (backend : Backend) (cfg : RouterConfig) : String :=
  if pyNorm model = "auto" then strongFor cfg backend else normalize_model model backend cfg

/-- Modelled from the spec: `decide_route` with the `ROUTER_ENABLE_POLICY`
toggle (spec §4.5; `app/config.py` declares the flag and
`app/openai_routes.py` passes it, but the router accepting it is not in
the source tree). Rules 1–3 (override, alias, pin) run as in the source;
with the policy disabled the request model is forwarded as normalized with
reason `direct:model`; with the policy enabled the source policy tail
runs. -/
def decide_route_policy (enable_policy : Bool) (cfg : RouterConfig) (aliases : AliasTable)
    (request_model : String) (headers : List (String × String)) (messages : List Json)
    (has_tools : Bool) : RouteDecision :=
  if enable_policy then decide_route cfg aliases request_model headers messages has_tools
  else
    let hdr_backend := pyNorm ((List.lookup "x-backend" headers).getD "")
    if hdr_backend = "ollama" then
      ⟨Backend.ollama, normalize_model request_model Backend.ollama cfg, "override:x-backend"⟩
    else if hdr_backend = "mlx" then
      ⟨Backend.mlx, normalize_model request_model Backend.mlx cfg, "override:x-backend"⟩
    else
      let alias_key := pyNorm request_model
      match (if alias_key = "" then none else List.lookup alias_key aliases) with
      | some a =>
          ⟨a.backend, normalize_model a.upstream_model a.backend cfg, "alias:model"⟩
      | none =>
          let backend := choose_backend_by_model request_model cfg.default_backend
          let mlow := pyNorm request_model
          let pinned := pyStartswith mlow "ollama:" || pyStartswith mlow "mlx:" ||
            mlow = "ollama" || mlow = "mlx" || mlow = "ollama-default" || mlow = "mlx-default"
          if pinned then
            ⟨backend, normalize_model request_model backend cfg, "pinned:model"⟩
          else
            ⟨backend, direct_normalize request_model backend cfg, "direct:model"⟩

/-- C3. With the routing policy disabled and a request model that is not an
`x-backend` override, not an alias key and not an explicitly pinned form,
the route is the chosen backend with the normalized request model and
reason `direct:model`; the sentinel `auto` maps to the default backend's
strong model instead of being forwarded. -/
theorem decide_route_policy_off_direct (cfg : RouterConfig) (aliases : AliasTable)
    (request_model : String) (headers : List (String × String)) (messages : List Json)
    (has_tools : Bool)
    (h1 : pyNorm ((List.lookup "x-backend" headers).getD "") ≠ "ollama")
    (h2 : pyNorm ((List.lookup "x-backend" headers).getD "") ≠ "mlx")
    (h3 : (if pyNorm request_model = "" then none
           else List.lookup (pyNorm request_model) aliases) = none)
    (h4 : (pyStartswith (pyNorm request_model) "ollama:" ||
           pyStartswith (pyNorm request_model) "mlx:" ||
           pyNorm request_model = "ollama" || pyNorm request_model = "mlx" ||
           pyNorm request_model = "ollama-default" ||
           pyNorm request_model = "mlx-default") = false) :
    decide_route_policy false cfg aliases request_model headers messages has_tools =
      ⟨choose_backend_by_model request_model cfg.default_backend,
       direct_normalize request_model (choose_backend_by_model request_model cfg.default_backend) cfg,
       "direct:model"⟩
    ∧ (pyNorm request_model = "auto" →
        choose_backend_by_model request_model cfg.default_backend = cfg.default_backend ∧
        direct_normalize request_model (choose_backend_by_model request_model cfg.default_backend) cfg
          = strongFor cfg cfg.default_backend) := by
  constructor
  · unfold decide_route_policy
    simp only [Bool.false_eq_true, if_false]
    rw [if_neg h1, if_neg h2, h3]
    simp only []
    rw [if_neg]
    simp only [h4, Bool.false_eq_true, not_false_eq_true]
  · intro hauto
    have hcb : choose_backend_by_model request_model cfg.default_backend = cfg.default_backend := by
      unfold choose_backend_by_model
      rw [hauto]
      rfl
    refine ⟨hcb, ?_⟩
    unfold direct_normalize
    rw [if_pos hauto, hcb]

/-- Witness for C3: with an empty alias table, no headers, and the sentinel
model `auto`, the route is the default backend's strong model with reason
`direct:model`. -/
theorem decide_route_policy_off_direct_witness :
    (pyNorm ((List.lookup "x-backend" ([] : List (String × String))).getD "") ≠ "ollama")
    ∧ (pyNorm ((List.lookup "x-backend" ([] : List (String × String))).getD "") ≠ "mlx")
    ∧ ((if pyNorm "auto" = "" then none
        else List.lookup (pyNorm "auto") ([] : AliasTable)) = none)
    ∧ ((pyStartswith (pyNorm "auto") "ollama:" || pyStartswith (pyNorm "auto") "mlx:" ||
        pyNorm "auto" = "ollama" || pyNorm "auto" = "mlx" ||
        pyNorm "auto" = "ollama-default" || pyNorm "auto" = "mlx-default") = false)
    ∧ decide_route_policy false (router_cfg {}) [] "auto" [] [] false =
        ⟨Backend.ollama, "qwen2.5:32b", "direct:model"⟩ := by
  refine ⟨by decide, by decide, by decide, by decide, ?_⟩
  have h := decide_route_policy_off_direct (router_cfg {}) [] "auto" [] [] false
    (by decide) (by decide) (by decide) (by decide)
  rw [h.1]
  decide

/-- Concrete settings used by the closed router examples. -/
def exSettings : Settings :=
  { OLLAMA_MODEL_STRONG := "strong", OLLAMA_MODEL_FAST := "fast",
    MLX_MODEL_STRONG := "mlx-strong", MLX_MODEL_FAST := "mlx-fast",
    ROUTER_LONG_CONTEXT_CHARS := 10 }

/-- A user message whose content meets `exSettings`' long-context threshold. -/
def exLongMessage : Json :=
  Json.obj [("role", Json.str "user"), ("content", Json.str "0123456789abcdef")]

/-- C5 (counterexample). With policy routing enabled, model `default` and a
message meeting the long-context threshold, the router still answers with
reason `alias:model` on the default backend: the alias hit for `default`
takes precedence over the long-context policy, contradicting the claim
that the reason starts with `policy:long_context` and that the backend is
that of alias `long` (which is `mlx` here). -/
theorem router_default_alias_shadows_long_context :
    long_context_threshold (router_cfg exSettings) (default_aliases exSettings)
        ≤ approx_text_size [exLongMessage]
    ∧ get_alias (default_aliases exSettings) "long"
        = some ⟨Backend.mlx, "mlx-strong", some 10, some false⟩
    ∧ decide_route_policy true (router_cfg exSettings) (default_aliases exSettings) "default"
        [] [exLongMessage] false
      = ⟨Backend.ollama, "strong", "alias:model"⟩
    ∧ pyStartswith "alias:model" "policy:long_context" = false
    ∧ Backend.ollama ≠ Backend.mlx := by
  refine ⟨by decide, by decide, by decide, by decide, by decide⟩

/-- C5 (amended). Without an `x-backend` override, an alias hit (such as the
ever-present `default` key) always takes precedence, with reason
`alias:model`, regardless of message size; the long-context policy routes
to alias `long` (reason `policy:long_context->alias:long`) only for a
request model that is neither an alias key nor pinned (such as the
sentinel `auto`) when the threshold is met. -/
theorem router_alias_precedence_and_long_context (cfg : RouterConfig) (aliases : AliasTable)
    (headers : List (String × String)) (messages : List Json)
    (h1 : pyNorm ((List.lookup "x-backend" headers).getD "") ≠ "ollama")
    (h2 : pyNorm ((List.lookup "x-backend" headers).getD "") ≠ "mlx") :
    (∀ (request_model : String) (has_tools : Bool) (a : ModelAlias),
      pyNorm request_model ≠ "" →
      List.lookup (pyNorm request_model) aliases = some a →
      decide_route cfg aliases request_model headers messages has_tools =
        ⟨a.backend, normalize_model a.upstream_model a.backend cfg, "alias:model"⟩)
    ∧ (∀ (request_model : String) (la : ModelAlias),
      (if pyNorm request_model = "" then none
       else List.lookup (pyNorm request_model) aliases) = none →
      (pyStartswith (pyNorm request_model) "ollama:" ||
       pyStartswith (pyNorm request_model) "mlx:" ||
       pyNorm request_model = "ollama" || pyNorm request_model = "mlx" ||
       pyNorm request_model = "ollama-default" ||
       pyNorm request_model = "mlx-default") = false →
      get_alias aliases "long" = some la →
      long_context_threshold cfg aliases ≤ approx_text_size messages →
      decide_route cfg aliases request_model headers messages false =
        ⟨la.backend, normalize_model la.upstream_model la.backend cfg,
         "policy:long_context->alias:long"⟩
      ∧ pyStartswith "policy:long_context->alias:long" "policy:long_context" = true) := by
  constructor
  · intro request_model has_tools a h3 h4
    unfold decide_route
    rw [if_neg h1, if_neg h2]
    simp only [if_neg h3, h4]
  · intro request_model la hnone hpin hla hle
    refine ⟨?_, by decide⟩
    unfold decide_route
    rw [if_neg h1, if_neg h2]
    simp only [hnone]
    rw [if_neg (by simp [hpin])]
    simp only [Bool.false_eq_true, if_false, if_pos hle, hla]

/-- Witness for the amended C5 at concrete inputs: the `default` alias hit
answers `alias:model`; the sentinel `auto` with a threshold-meeting
message routes to alias `long`. -/
theorem router_alias_precedence_and_long_context_witness :
    decide_route (router_cfg exSettings) (default_aliases exSettings) "default" []
        [exLongMessage] false
      = ⟨Backend.ollama, "strong", "alias:model"⟩
    ∧ decide_route (router_cfg exSettings) (default_aliases exSettings) "auto" []
        [exLongMessage] false
      = ⟨Backend.mlx, "mlx-strong", "policy:long_context->alias:long"⟩ := by
  have h := router_alias_precedence_and_long_context (router_cfg exSettings)
    (default_aliases exSettings) [] [exLongMessage] (by decide) (by decide)
  constructor
  · rw [h.1 "default" false ⟨Backend.ollama, "strong", none, some true⟩ (by decide) (by decide)]
    decide
  · rw [(h.2 "auto" ⟨Backend.mlx, "mlx-strong", some 10, some false⟩ (by decide) (by decide)
      (by decide) (by decide)).1]
    decide

/-! ## HTTP errors

`fastapi.HTTPException(status_code, detail, headers)`: `detail` is either a
string or a JSON object, both rendered as `Json` here. -/

/-- A raised `HTTPException`. -/
structure HTTPError where
  status : Nat
  detail : Json
  headers : List (String × String) := []

/-! ## The health gate (`app/health_checker.py`) -/

/-- Structure `HealthStatus` (`app/health_checker.py`). -/
structure HealthStatus where
  backend_class : String
  is_healthy : Bool
  is_ready : Bool
  last_check : Int
  error : Option String := none
  deriving DecidableEq, Repr

/-- State of the `HealthChecker`: the `_status` dict written by the probe loop. -/
structure HealthChecker where
  status : List (String × HealthStatus)

/-- Model of `HealthChecker.get_status(backend_class)`. -/
def HealthChecker.get_status (c : HealthChecker) (backend_class : String) :
    Option HealthStatus :=
  List.lookup backend_class c.status

/-- Model of `HealthChecker.is_ready(backend_class)`: optimistic before any probe. -/
def HealthChecker.is_ready (c : HealthChecker) (backend_class : String) : Bool :=
  match List.lookup backend_class c.status with
  | none => true
  | some st => st.is_ready

/-- Model of `check_backend_ready(backend_class)` (`app/health_checker.py`): raise
503 with `Retry-After: 30` when the backend is not ready; the recorded
probe error is attached as `health_error` when truthy. -/
def check_backend_ready (c : HealthChecker) (backend_class : String) :
    Except HTTPError Unit :=
  if c.is_ready backend_class then Except.ok ()
  else
    let status := c.get_status backend_class
    let extra : List (String × Json) :=
      match status with
      | some st =>
          match st.error with
          | some e => if e ≠ "" then [("health_error", Json.str e)] else []
          | none => []
      | none => []
    Except.error
      ⟨503,
       Json.obj ([("error", Json.str "backend_not_ready"),
          ("backend_class", Json.str backend_class),
          ("message", Json.str ("Backend " ++ backend_class ++
            " is not ready to accept requests"))] ++ extra),
       [("Retry-After", "30")]⟩

/-- C6. Before the first probe of a backend completes, `is_ready` is true
(optimistic start); and whenever the last recorded probe left
`ready=false`, `check_backend_ready` raises HTTP 503 with
`Retry-After: 30` and a body carrying `"error":"backend_not_ready"`, the
backend identifier, and the recorded health error when present. -/
theorem health_gate_optimistic_and_not_ready (c : HealthChecker) (b : String) :
    (c.get_status b = none → c.is_ready b = true)
    ∧ (∀ st : HealthStatus, c.get_status b = some st → st.is_ready = false →
        ∃ e : HTTPError, check_backend_ready c b = Except.error e
          ∧ e.status = 503
          ∧ e.headers = [("Retry-After", "30")]
          ∧ e.detail.get "error" = some (Json.str "backend_not_ready")
          ∧ e.detail.get "backend_class" = some (Json.str b)
          ∧ (∀ msg : String, st.error = some msg → msg ≠ "" →
              e.detail.get "health_error" = some (Json.str msg))) := by
  constructor
  · intro h
    unfold HealthChecker.is_ready
    unfold HealthChecker.get_status at h
    rw [h]
  · intro st hst hnr
    unfold HealthChecker.get_status at hst
    have hready : c.is_ready b = false := by
      unfold HealthChecker.is_ready
      rw [hst]
      exact hnr
    have hcheck : check_backend_ready c b = Except.error
        ⟨503,
         Json.obj ([("error", Json.str "backend_not_ready"),
            ("backend_class", Json.str b),
            ("message", Json.str ("Backend " ++ b ++ " is not ready to accept requests"))] ++
           (match st.error with
            | some e => if e ≠ "" then [("health_error", Json.str e)] else []
            | none => [])),
         [("Retry-After", "30")]⟩ := by
      unfold check_backend_ready
      rw [hready]
      simp only [Bool.false_eq_true, if_false]
      unfold HealthChecker.get_status
      rw [hst]
    refine ⟨_, hcheck, rfl, rfl, ?_, ?_, ?_⟩
    · simp [Json.get, List.lookup]
    · simp [Json.get, List.lookup]
    · intro msg hmsg hne
      rw [hmsg]
      simp [Json.get, List.lookup, hne]

/-- A concrete health state for the C6 witness: `gpu_heavy` probed and not
ready, `local_mlx` never probed. -/
def exChecker : HealthChecker :=
  ⟨[("gpu_heavy", ⟨"gpu_heavy", false, false, 0, some "liveness check failed: refused"⟩)]⟩

/-- Witness for C6 at concrete inputs. -/
theorem health_gate_optimistic_and_not_ready_witness :
    exChecker.is_ready "local_mlx" = true
    ∧ ∃ e : HTTPError, check_backend_ready exChecker "gpu_heavy" = Except.error e
        ∧ e.status = 503
        ∧ e.headers = [("Retry-After", "30")]
        ∧ e.detail.get "error" = some (Json.str "backend_not_ready")
        ∧ e.detail.get "backend_class" = some (Json.str "gpu_heavy")
        ∧ e.detail.get "health_error" = some (Json.str "liveness check failed: refused") := by
  constructor
  · exact (health_gate_optimistic_and_not_ready exChecker "local_mlx").1 rfl
  · obtain ⟨e, he, hs, hh, h1, h2, h3⟩ :=
      (health_gate_optimistic_and_not_ready exChecker "gpu_heavy").2
        ⟨"gpu_heavy", false, false, 0, some "liveness check failed: refused"⟩ rfl rfl
    exact ⟨e, he, hs, hh, h1, h2, h3 "liveness check failed: refused" rfl (by decide)⟩

/-! ## The admission controller

`app/backends.py` (`AdmissionController`) is not part of the source tree;
only its tests (`test_policy_enforcement.py`) and the spec describe it.
Everything below is modelled from the spec (§4.3): one bounded counting
semaphore per `(backend, capability)`; `acquire` admits immediately when a
slot is free and otherwise fails fast with 429, a
`{"error": "backend_overloaded", backend, capability}` body and
`Retry-After: 5`; `release` returns the slot; no queueing. -/

/-- Modelled from the spec: the admission controller's state — the
per-`(backend, capability)` limits from the backend registry and the
in-flight counts. -/
structure AdmissionController where
  limits : List ((String × String) × Nat)
  inflight : List ((String × String) × Nat)

/-- Modelled from the spec: `acquire(backend, capability)` — immediate
admission or fast-fail 429, never queueing. -/
def AdmissionController.acquire (ac : AdmissionController) (b c : String) :
    Except HTTPError AdmissionController :=
  let limit := (List.lookup (b, c) ac.limits).getD 0
  let used := (List.lookup (b, c) ac.inflight).getD 0
  if used < limit then
    Except.ok { ac with inflight := dictInsert (b, c) (used + 1) ac.inflight }
  else
    Except.error
      ⟨429,
       Json.obj [("error", Json.str "backend_overloaded"),
          ("backend", Json.str b), ("capability", Json.str c)],
       [("Retry-After", "5")]⟩

/-- Modelled from the spec: `release(backend, capability)`. -/
def AdmissionController.release (ac : AdmissionController) (b c : String) :
    AdmissionController :=
  { ac with inflight := dictInsert (b, c) ((List.lookup (b, c) ac.inflight).getD 0 - 1) ac.inflight }

/-- C2. When every slot of `(backend, capability)` is in use, `acquire`
fails immediately with HTTP 429, body
`{"error":"backend_overloaded", backend, capability}` and
`Retry-After: 5`; when a slot is free the request is admitted immediately
with the in-flight count incremented. -/
theorem admission_acquire_fast_fail (ac : AdmissionController) (b c : String)
    (limit : Nat) (hl : List.lookup (b, c) ac.limits = some limit) :
    (limit ≤ (List.lookup (b, c) ac.inflight).getD 0 →
      ac.acquire b c = Except.error
        ⟨429,
         Json.obj [("error", Json.str "backend_overloaded"),
            ("backend", Json.str b), ("capability", Json.str c)],
         [("Retry-After", "5")]⟩)
    ∧ ((List.lookup (b, c) ac.inflight).getD 0 < limit →
      ac.acquire b c = Except.ok
        { ac with inflight :=
            dictInsert (b, c) ((List.lookup (b, c) ac.inflight).getD 0 + 1) ac.inflight }) := by
  constructor
  · intro hfull
    unfold AdmissionController.acquire
    rw [hl]
    simp only [Option.getD_some]
    rw [if_neg (by omega)]
  · intro hfree
    unfold AdmissionController.acquire
    rw [hl]
    simp only [Option.getD_some]
    rw [if_pos hfree]

/-- The C2 scenario state: `gpu_heavy.images` limited to one slot, idle. -/
def exAdmission : AdmissionController :=
  ⟨[(("gpu_heavy", "images"), 1)], []⟩

/-- Witness for C2: of two concurrent `images` requests on `gpu_heavy`
(limit 1), the first is admitted and the second fails fast with 429 and
`Retry-After: 5`. -/
theorem admission_acquire_fast_fail_witness :
    exAdmission.acquire "gpu_heavy" "images" = Except.ok
      ⟨[(("gpu_heavy", "images"), 1)], [(("gpu_heavy", "images"), 1)]⟩
    ∧ (AdmissionController.acquire
        ⟨[(("gpu_heavy", "images"), 1)], [(("gpu_heavy", "images"), 1)]⟩ "gpu_heavy" "images")
      = Except.error
        ⟨429,
         Json.obj [("error", Json.str "backend_overloaded"),
            ("backend", Json.str "gpu_heavy"), ("capability", Json.str "images")],
         [("Retry-After", "5")]⟩ := by
  constructor
  · rw [(admission_acquire_fast_fail exAdmission "gpu_heavy" "images" 1 rfl).2 (by decide)]
    rfl
  · exact (admission_acquire_fast_fail
      ⟨[(("gpu_heavy", "images"), 1)], [(("gpu_heavy", "images"), 1)]⟩
      "gpu_heavy" "images" 1 rfl).1 (by decide)

/-! ## The tool bus (`app/tools_bus.py`)

Tool implementation bodies do I/O (subprocesses, files, HTTP); they are
abstracted as total functions `Json → Json` supplied as oracles, while the
dispatch table's keys, the schemas, the allowlist logic, the argument
validation and the response/event assembly are translated from the
source. -/

/-- Lexicographic order on strings by code point (Python `sorted`). -/
def lexLe : List Char → List Char → Bool
  | [], _ => true
  | _ :: _, [] => false
  | a :: as, b :: bs =>
      if a.toNat < b.toNat then true
      else if a.toNat = b.toNat then lexLe as bs
      else false

/-- Stable insertion into a sorted list. -/
def insSorted (x : String) : List String → List String
  | [] => [x]
  | y :: ys => if lexLe x.data y.data then x :: y :: ys else y :: insSorted x ys

/-- Python `sorted` on strings. -/
def pySorted (l : List String) : List String := l.foldr insSorted []

theorem mem_insSorted (x y : String) (l : List String) :
    y ∈ insSorted x l ↔ y = x ∨ y ∈ l := by
  induction l with
  | nil => simp [insSorted]
  | cons hd tl ih =>
      by_cases h : lexLe x.data hd.data
      · simp [insSorted, h]
      · simp [insSorted, h, ih]
        tauto

theorem mem_pySorted (x : String) (l : List String) : x ∈ pySorted l ↔ x ∈ l := by
  induction l with
  | nil => simp [pySorted]
  | cons hd tl ih =>
      simp only [pySorted, List.foldr] at ih ⊢
      rw [mem_insSorted]
      simp [ih]

/-- Python `s.split(sep)` over characters. -/
def splitOnChar (sep : Char) : List Char → List (List Char)
  | [] => [[]]
  | c :: rest =>
      let r := splitOnChar sep rest
      if c = sep then [] :: r
      else
        match r with
        | [] => [[c]]
        | h :: t => (c :: h) :: t

/-- Python `s.split(sep)`. -/
def pySplit (s : String) (sep : Char) : List String :=
  (splitOnChar sep s.data).map (fun l => ⟨l⟩)

/-- The type-directed per-property check of `_validate_against_schema`. -/
def prop_type_err (akvs : List (String × Json)) (kv : String × Json) : Option String :=
  match List.lookup kv.1 akvs with
  | none => none
  | some v =>
      match kv.2 with
      | Json.obj skvs =>
          match (Json.obj skvs).get "type" with
          | some (Json.str "string") =>
              if v.isStr then none else some (kv.1 ++ " must be a string")
          | some (Json.str "array") =>
              match v with
              | Json.arr items =>
                  match (Json.obj skvs).get "items" with
                  | some (Json.obj ikvs) =>
                      match (Json.obj ikvs).get "type" with
                      | some (Json.str "string") =>
                          if items.all Json.isStr then none
                          else some (kv.1 ++ " items must be strings")
                      | _ => none
                  | _ => none
              | _ => some (kv.1 ++ " must be an array")
          | some (Json.str "object") =>
              if v.isObj then none else some (kv.1 ++ " must be an object")
          | _ => none
      | _ => none

/-- Model of `_validate_against_schema(params_schema, args)` (`app/tools_bus.py`):
required fields, `additionalProperties=false` rejection of undeclared
fields (sorted), then per-property type checks. -/
def validate_against_schema (params_schema args : Json) : List String :=
  match args with
  | Json.obj akvs =>
      match params_schema.get "type" with
      | some (Json.str "object") =>
        let props :=
          match params_schema.get "properties" with
          | some (Json.obj pkvs) => pkvs
          | _ => []
        let requiredErrs :=
          match params_schema.get "required" with
          | some (Json.arr reqs) =>
              reqs.filterMap (fun r =>
                match r with
                | Json.str k =>
                    if (List.lookup k akvs).isNone then
                      some ("missing required field: " ++ k)
                    else none
                | _ => none)
          | _ => []
        let additionalErrs :=
          match params_schema.get "additionalProperties" with
          | some (Json.bool false) =>
              let allowed := props.map Prod.fst
              let extra := pySorted ((akvs.map Prod.fst).filter (fun k => k ∉ allowed))
              extra.map (fun k => "unexpected field: " ++ k)
          | _ => []
        let typeErrs := props.filterMap (prop_type_err akvs)
        requiredErrs ++ additionalErrs ++ typeErrs
      | _ => []
  | _ => ["arguments must be a JSON object"]

/-- Table `TOOL_SCHEMAS` (`app/tools_bus.py`). -/
def TOOL_SCHEMAS : List (String × Json) :=
  [("shell", Json.obj
     [("name", Json.str "shell"),
      ("description", Json.str "Run a command locally (no shell=True)."),
      ("parameters", Json.obj
        [("type", Json.str "object"),
         ("properties", Json.obj
           [("cmd", Json.obj [("type", Json.str "string"),
              ("description", Json.str "Command string to execute.")])]),
         ("required", Json.arr [Json.str "cmd"]),
         ("additionalProperties", Json.bool false)])]),
   ("read_file", Json.obj
     [("name", Json.str "read_file"),
      ("description", Json.str "Read a local text file."),
      ("parameters", Json.obj
        [("type", Json.str "object"),
         ("properties", Json.obj [("path", Json.obj [("type", Json.str "string")])]),
         ("required", Json.arr [Json.str "path"]),
         ("additionalProperties", Json.bool false)])]),
   ("write_file", Json.obj
     [("name", Json.str "write_file"),
      ("description", Json.str "Write a local text file."),
      ("parameters", Json.obj
        [("type", Json.str "object"),
         ("properties", Json.obj
           [("path", Json.obj [("type", Json.str "string")]),
            ("content", Json.obj [("type", Json.str "string")])]),
         ("required", Json.arr [Json.str "path", Json.str "content"]),
         ("additionalProperties", Json.bool false)])]),
   ("git", Json.obj
     [("name", Json.str "git"),
      ("description", Json.str
        "Run a limited set of git subcommands in a configured repo directory."),
      ("parameters", Json.obj
        [("type", Json.str "object"),
         ("properties", Json.obj
           [("args", Json.obj [("type", Json.str "array"),
              ("items", Json.obj [("type", Json.str "string")])])]),
         ("required", Json.arr [Json.str "args"]),
         ("additionalProperties", Json.bool false)])]),
   ("http_fetch", Json.obj
     [("name", Json.str "http_fetch"),
      ("description", Json.str "Fetch a URL via GET with host allowlist and size limits."),
      ("parameters", Json.obj
        [("type", Json.str "object"),
         ("properties", Json.obj
           [("url", Json.obj [("type", Json.str "string")]),
            ("method", Json.obj [("type", Json.str "string"),
               ("enum", Json.arr [Json.str "GET"])]),
            ("headers", Json.obj [("type", Json.str "object"),
               ("additionalProperties", Json.obj [("type", Json.str "string")])])]),
         ("required", Json.arr [Json.str "url"]),
         ("additionalProperties", Json.bool false)])])]

/-- The effectful bodies of the five built-in tools, abstracted. -/
structure ToolOracles where
  shell : Json → Json
  read_file : Json → Json
  write_file : Json → Json
  http_fetch : Json → Json
  git : Json → Json

/-- Model of `TOOL_IMPL` (`app/tools_bus.py`): the dispatch table. -/
def TOOL_IMPL (o : ToolOracles) (name : String) : Option (Json → Json) :=
  if name = "shell" then some o.shell
  else if name = "read_file" then some o.read_file
  else if name = "write_file" then some o.write_file
  else if name = "http_fetch" then some o.http_fetch
  else if name = "git" then some o.git
  else none

/-- Model of `_allowed_tool_names()` (`app/tools_bus.py`): the explicit allowlist
when non-blank, else the feature-toggle union. -/
def allowed_tool_names (s : Settings) : List String :=
  if pyStrip s.TOOLS_ALLOWLIST ≠ "" then
    ((pySplit (pyStrip s.TOOLS_ALLOWLIST) ',').map pyStrip).filter (fun p => p ≠ "")
  else
    (if s.TOOLS_ALLOW_SHELL then ["shell"] else []) ++
    (if s.TOOLS_ALLOW_FS then ["read_file", "write_file"] else []) ++
    (if s.TOOLS_ALLOW_HTTP_FETCH then ["http_fetch"] else []) ++
    (if s.TOOLS_ALLOW_GIT then ["git"] else [])

/-- Model of `is_tool_allowed(name)` (`app/tools_bus.py`). -/
def is_tool_allowed (s : Settings) (name : String) : Bool :=
  (allowed_tool_names s).contains name

/-- Model of `run_tool_call(name, arguments_json)` (`app/tools_bus.py` and
`app/main.py`): unknown tools, disallowed tools and unparseable arguments
come back as `ok=false` tool results, not exceptions. `parseJson` stands
for `json.loads` (`none` = raises). -/
def run_tool_call (s : Settings) (o : ToolOracles) (parseJson : String → Option Json)
    (name arguments_json : String) : Json :=
  match TOOL_IMPL o name with
  | none => Json.obj [("ok", Json.bool false), ("error", Json.str ("unknown tool: " ++ name))]
  | some fn =>
      if is_tool_allowed s name = false then
        Json.obj [("ok", Json.bool false), ("error", Json.str ("tool not allowed: " ++ name))]
      else
        match (if arguments_json = "" then some (Json.obj []) else parseJson arguments_json) with
        | none => Json.obj [("ok", Json.bool false),
            ("error", Json.str "tool arguments must be valid JSON")]
        | some args => fn args

/-- Model of `_truncate(s, max_chars)`: only strings are truncated. -/
def truncVal (v : Json) (max_chars : Nat) : Json :=
  match v with
  | Json.str s => if max_chars < s.length then Json.str (strTake s max_chars ++ "…") else Json.str s
  | v => v

/-- Model of `_execute_tool(name, args)` (`app/tools_bus.py`): resolve, allowlist,
validate, execute, log. Returns the response and the logged event;
`rid` models `new_id("tool")`, `ts` the clock, `dur` the measured
`duration_ms`. -/
def execute_tool (s : Settings) (o : ToolOracles) (rid : String) (ts : Int) (dur : Json)
    (name : String) (args : Json) : Except HTTPError (Json × Json) :=
  match TOOL_IMPL o name with
  | none => Except.error ⟨404, Json.str ("unknown tool: " ++ name), []⟩
  | some fn =>
      if is_tool_allowed s name = false then
        Except.error ⟨403, Json.str ("tool not allowed: " ++ name), []⟩
      else
        let errs :=
          match List.lookup name TOOL_SCHEMAS with
          | some sch =>
              match sch.get "parameters" with
              | some params => if params.isObj then validate_against_schema params args else []
              | none => []
          | none => []
        if errs ≠ [] then
          Except.error ⟨400,
            Json.obj [("error", Json.str "invalid tool arguments"),
              ("issues", Json.arr (errs.map Json.str))], []⟩
        else
          let out := fn args
          let event := Json.obj
            [("ts", Json.num ts), ("replay_id", Json.str rid), ("tool", Json.str name),
             ("ok", Json.bool (match out.get "ok" with
                | some v => jsonTruthy v
                | none => false)),
             ("duration_ms", dur),
             ("args", truncVal args 10000), ("result", truncVal out 20000)]
          let response :=
            match out with
            | Json.obj okvs =>
                Json.obj (okvs.foldl (fun acc kv => dictInsert kv.1 kv.2 acc)
                  [("replay_id", Json.str rid)])
            | _ => Json.obj [("replay_id", Json.str rid), ("ok", Json.bool false),
                ("error", Json.str "invalid tool result")]
          Except.ok (response, event)

/-- C8. `run_tool_call` returns failures as data: an unknown tool, a tool
outside the effective allowlist, and arguments that are not valid JSON
each produce an `ok=false` object with an error description — no tool body
runs and nothing is raised (the result holds for every oracle table). -/
theorem run_tool_call_never_raises (s : Settings) (o : ToolOracles)
    (parseJson : String → Option Json) (name arguments_json : String) :
    (TOOL_IMPL o name = none →
      run_tool_call s o parseJson name arguments_json =
        Json.obj [("ok", Json.bool false), ("error", Json.str ("unknown tool: " ++ name))])
    ∧ (∀ fn, TOOL_IMPL o name = some fn → is_tool_allowed s name = false →
      run_tool_call s o parseJson name arguments_json =
        Json.obj [("ok", Json.bool false), ("error", Json.str ("tool not allowed: " ++ name))])
    ∧ (∀ fn, TOOL_IMPL o name = some fn → is_tool_allowed s name = true →
      arguments_json ≠ "" → parseJson arguments_json = none →
      run_tool_call s o parseJson name arguments_json =
        Json.obj [("ok", Json.bool false),
          ("error", Json.str "tool arguments must be valid JSON")]) := by
  refine ⟨?_, ?_, ?_⟩
  · intro h
    unfold run_tool_call
    simp only [h]
  · intro fn h hna
    unfold run_tool_call
    simp only [h]
    rw [if_pos hna]
  · intro fn h hal hne hparse
    unfold run_tool_call
    simp only [h]
    rw [if_neg (show ¬(is_tool_allowed s name = false) from by simp [hal])]
    rw [if_neg hne, hparse]

/-- Oracles whose bodies are never reached in the C8 witness. -/
def exOracles : ToolOracles :=
  ⟨fun _ => Json.null, fun _ => Json.null, fun _ => Json.null,
   fun _ => Json.null, fun _ => Json.null⟩

/-- A parser oracle that fails on every string. -/
def exParseFail : String → Option Json := fun _ => none

/-- Settings allowlisting only `shell`. -/
def exToolSettings : Settings := { TOOLS_ALLOWLIST := "shell" }

/-- Witness for C8: unknown tool, disallowed tool, and invalid JSON
arguments each return `ok=false` objects. -/
theorem run_tool_call_never_raises_witness :
    run_tool_call {} exOracles exParseFail "nope" "" =
      Json.obj [("ok", Json.bool false), ("error", Json.str "unknown tool: nope")]
    ∧ run_tool_call {} exOracles exParseFail "shell" "" =
      Json.obj [("ok", Json.bool false), ("error", Json.str "tool not allowed: shell")]
    ∧ run_tool_call exToolSettings exOracles exParseFail "shell" "not json" =
      Json.obj [("ok", Json.bool false),
        ("error", Json.str "tool arguments must be valid JSON")] := by
  refine ⟨?_, ?_, ?_⟩
  · exact (run_tool_call_never_raises {} exOracles exParseFail "nope" "").1 rfl
  · exact (run_tool_call_never_raises {} exOracles exParseFail "shell" "").2.1
      exOracles.shell rfl (by decide)
  · exact (run_tool_call_never_raises exToolSettings exOracles exParseFail "shell"
      "not json").2.2 exOracles.shell rfl (by decide) (by decide) rfl

/-- C7. For an object schema with `additionalProperties=false` and object
arguments: every argument key outside `properties` yields an
`unexpected field` issue, every `required` key missing from the arguments
yields a `missing required field` issue, and a non-empty issue list makes
`_execute_tool` reject with HTTP 400 carrying the issues. -/
theorem tool_schema_validation_rejects (params : Json) (pkvs akvs : List (String × Json))
    (hp : params.get "type" = some (Json.str "object"))
    (hprops : params.get "properties" = some (Json.obj pkvs))
    (haddl : params.get "additionalProperties" = some (Json.bool false)) :
    (∀ k, k ∈ akvs.map Prod.fst → k ∉ pkvs.map Prod.fst →
      ("unexpected field: " ++ k) ∈ validate_against_schema params (Json.obj akvs))
    ∧ (∀ (reqs : List Json) (k : String), params.get "required" = some (Json.arr reqs) →
        Json.str k ∈ reqs → List.lookup k akvs = none →
        ("missing required field: " ++ k) ∈ validate_against_schema params (Json.obj akvs))
    ∧ (∀ (s : Settings) (o : ToolOracles) (rid : String) (ts : Int) (dur : Json)
        (name : String) (args : Json) (sch pr : Json) (fn : Json → Json),
        List.lookup name TOOL_SCHEMAS = some sch → sch.get "parameters" = some pr →
        pr.isObj = true →
        TOOL_IMPL o name = some fn → is_tool_allowed s name = true →
        validate_against_schema pr args ≠ [] →
        execute_tool s o rid ts dur name args = Except.error
          ⟨400,
           Json.obj [("error", Json.str "invalid tool arguments"),
             ("issues", Json.arr ((validate_against_schema pr args).map Json.str))],
           []⟩) := by
  refine ⟨?_, ?_, ?_⟩
  · intro k hk hnk
    unfold validate_against_schema
    rw [hp, hprops, haddl]
    simp only [List.mem_append]
    refine Or.inl (Or.inr ?_)
    refine List.mem_map.mpr ⟨k, ?_, rfl⟩
    rw [mem_pySorted]
    rw [List.mem_filter]
    exact ⟨hk, by simpa using hnk⟩
  · intro reqs k hreq hkr hmiss
    unfold validate_against_schema
    rw [hp, hreq]
    simp only [List.mem_append]
    refine Or.inl (Or.inl ?_)
    refine List.mem_filterMap.mpr ⟨Json.str k, hkr, ?_⟩
    simp [hmiss]
  · intro s o rid ts dur name args sch pr fn hsch hpr hobj hfn hal hne
    unfold execute_tool
    simp only [hfn]
    rw [if_neg (show ¬(is_tool_allowed s name = false) from by simp [hal])]
    simp only [hsch, hpr, if_pos hobj]
    rw [if_pos hne]

/-- Witness for C7 against the declared `shell` schema: an undeclared
`extra` field and a missing required `cmd` are both reported, and
execution is rejected with 400. -/
theorem tool_schema_validation_rejects_witness :
    ("unexpected field: extra" ∈ validate_against_schema
      (Json.obj
        [("type", Json.str "object"),
         ("properties", Json.obj
           [("cmd", Json.obj [("type", Json.str "string"),
              ("description", Json.str "Command string to execute.")])]),
         ("required", Json.arr [Json.str "cmd"]),
         ("additionalProperties", Json.bool false)])
      (Json.obj [("cmd", Json.str "x"), ("extra", Json.num 1)]))
    ∧ ("missing required field: cmd" ∈ validate_against_schema
      (Json.obj
        [("type", Json.str "object"),
         ("properties", Json.obj
           [("cmd", Json.obj [("type", Json.str "string"),
              ("description", Json.str "Command string to execute.")])]),
         ("required", Json.arr [Json.str "cmd"]),
         ("additionalProperties", Json.bool false)])
      (Json.obj []))
    ∧ ∃ d : Json, execute_tool exToolSettings exOracles "tool-0001" 0 (Json.num 1) "shell"
        (Json.obj [("cmd", Json.str "x"), ("extra", Json.num 1)]) =
        Except.error ⟨400, d, []⟩ := by
  have h := tool_schema_validation_rejects
    (Json.obj
      [("type", Json.str "object"),
       ("properties", Json.obj
         [("cmd", Json.obj [("type", Json.str "string"),
            ("description", Json.str "Command string to execute.")])]),
       ("required", Json.arr [Json.str "cmd"]),
       ("additionalProperties", Json.bool false)])
    [("cmd", Json.obj [("type", Json.str "string"),
       ("description", Json.str "Command string to execute.")])]
    [("cmd", Json.str "x"), ("extra", Json.num 1)] rfl rfl rfl
  have h2 := tool_schema_validation_rejects
    (Json.obj
      [("type", Json.str "object"),
       ("properties", Json.obj
         [("cmd", Json.obj [("type", Json.str "string"),
            ("description", Json.str "Command string to execute.")])]),
       ("required", Json.arr [Json.str "cmd"]),
       ("additionalProperties", Json.bool false)])
    [("cmd", Json.obj [("type", Json.str "string"),
       ("description", Json.str "Command string to execute.")])]
    [] rfl rfl rfl
  refine ⟨h.1 "extra" (by decide) (by decide), ?_, ?_⟩
  · exact h2.2.1 [Json.str "cmd"] "cmd" rfl (by simp) rfl
  · refine ⟨_, h.2.2 exToolSettings exOracles "tool-0001" 0 (Json.num 1) "shell"
      (Json.obj [("cmd", Json.str "x"), ("extra", Json.num 1)]) _ _ exOracles.shell
      rfl rfl rfl rfl (by decide) ?_⟩
    decide

/-- The observed `tool_shell` result when `TOOLS_ALLOW_SHELL` is off,
as the oracle body for the C4 evaluation. -/
def exShellOracles : ToolOracles :=
  ⟨fun _ => Json.obj [("ok", Json.bool false), ("error", Json.str "shell tool disabled")],
   fun _ => Json.null, fun _ => Json.null, fun _ => Json.null, fun _ => Json.null⟩

/-- C4. The tool bus is claimed to attach a stable `request_hash`
(SHA-256 of canonical `{name, version, args}`) to both the invocation
record and the response; evaluating `_execute_tool` shows that neither the
response nor the logged event carries any `request_hash` (or `version`)
field — only `replay_id` is attached. -/
theorem execute_tool_lacks_request_hash :
    ∃ r1 e1 r2 e2 : Json,
      execute_tool exToolSettings exShellOracles "tool-0001" 0 (Json.num 1) "shell"
          (Json.obj [("cmd", Json.str "x")]) = Except.ok (r1, e1)
      ∧ execute_tool exToolSettings exShellOracles "tool-0002" 0 (Json.num 1) "shell"
          (Json.obj [("cmd", Json.str "x")]) = Except.ok (r2, e2)
      ∧ r1.keys = ["replay_id", "ok", "error"]
      ∧ e1.keys = ["ts", "replay_id", "tool", "ok", "duration_ms", "args", "result"]
      ∧ "request_hash" ∉ r1.keys ∧ "request_hash" ∉ e1.keys ∧ "version" ∉ e1.keys
      ∧ r1.get "replay_id" = some (Json.str "tool-0001")
      ∧ r2.get "replay_id" = some (Json.str "tool-0002") := by
  refine ⟨_, _, _, _, rfl, rfl, by decide, by decide, by decide, by decide, by decide,
    rfl, rfl⟩

/-! ## The tool loop (`app/main.py` `tool_loop`)

The upstream chat call (`call_mlx_openai` / `call_ollama`) is abstracted
as a deterministic oracle from the request to the parsed response; the
loop body — extracting `tool_calls`, executing each through
`run_tool_call` in declaration order, appending the assistant and tool
messages, and re-issuing the request with `stream=False` — is translated
from the source. -/

/-- One OpenAI-format tool call `{id, function: {name, arguments}}`. -/
structure ToolCall where
  id : Option String
  name : String
  arguments : String
  deriving DecidableEq, Repr

/-- A chat message as built by the loop (`ChatMessage`, `app/main.py`);
an absent `tool_calls` and an empty list are both falsy in the source and
are identified here. -/
structure ChatMessage where
  role : String
  content : Option Json := none
  name : Option String := none
  tool_calls : List ToolCall := []
  tool_call_id : Option String := none

/-- The assistant message of an upstream chat response. -/
structure UpstreamMsg where
  role : String
  content : Option Json
  tool_calls : List ToolCall

/-- An upstream chat response, reduced to the first choice's message. -/
structure ChatResponse where
  message : UpstreamMsg

/-- Structure `ChatCompletionRequest` (`app/main.py`), with only the fields the loop
threads. -/
structure ChatCompletionRequest where
  model : String
  messages : List ChatMessage
  tools : Option Json := none
  tool_choice : Option Json := none
  temperature : Option Json := none
  max_tokens : Option Int := none
  stream : Bool := false

/-- The tool message appended per call:
`ChatMessage(role="tool", tool_call_id=tc.get("id"), content=json.dumps(result))`. -/
def toolMsg (s : Settings) (o : ToolOracles) (parseJson : String → Option Json)
    (tc : ToolCall) : ChatMessage :=
  { role := "tool", tool_call_id := tc.id,
    content := some (Json.str (Json.enc (run_tool_call s o parseJson tc.name tc.arguments))) }

/-- Model of `ChatMessage(**msg)`: the assistant message carrying the tool calls. -/
def assistantMsg (m : UpstreamMsg) : ChatMessage :=
  { role := m.role, content := m.content, tool_calls := m.tool_calls }

/-- The request for the next round: messages extended by the assistant
message and one tool message per tool call, in declaration order,
`stream=False`. -/
def next_request (s : Settings) (o : ToolOracles) (parseJson : String → Option Json)
    (req : ChatCompletionRequest) (m : UpstreamMsg) : ChatCompletionRequest :=
  { model := req.model,
    messages := req.messages ++ [assistantMsg m] ++ m.tool_calls.map (toolMsg s o parseJson),
    tools := req.tools, tool_choice := req.tool_choice, temperature := req.temperature,
    max_tokens := req.max_tokens, stream := false }

/-- Model of `tool_loop(...)` (`app/main.py`) with explicit fuel (`max_steps`),
returning the result together with the number of upstream calls made.
Exhausted fuel is the `HTTPException(500, "tool loop exceeded max_steps")`. -/
def tool_loop_aux (s : Settings) (o : ToolOracles) (parseJson : String → Option Json)
    (call : ChatCompletionRequest → ChatResponse) (req : ChatCompletionRequest) :
    Nat → Except HTTPError ChatResponse × Nat
  | 0 => (Except.error ⟨500, Json.str "tool loop exceeded max_steps", []⟩, 0)
  | fuel + 1 =>
      if (call req).message.tool_calls = [] then (Except.ok (call req), 1)
      else
        ((tool_loop_aux s o parseJson call
            (next_request s o parseJson req (call req).message) fuel).1,
         (tool_loop_aux s o parseJson call
            (next_request s o parseJson req (call req).message) fuel).2 + 1)

/-- Model of `tool_loop` with the source's default `max_steps=8`. -/
def tool_loop (s : Settings) (o : ToolOracles) (parseJson : String → Option Json)
    (call : ChatCompletionRequest → ChatResponse) (req : ChatCompletionRequest) :
    Except HTTPError ChatResponse :=
  (tool_loop_aux s o parseJson call req 8).1

/-- The request issued on the `i`-th upstream call of the loop. -/
def tool_loop_nth_request (s : Settings) (o : ToolOracles)
    (parseJson : String → Option Json) (call : ChatCompletionRequest → ChatResponse)
    (req : ChatCompletionRequest) : Nat → ChatCompletionRequest
  | 0 => req
  | i + 1 =>
      next_request s o parseJson (tool_loop_nth_request s o parseJson call req i)
        (call (tool_loop_nth_request s o parseJson call req i)).message

theorem tool_loop_nth_request_shift (s : Settings) (o : ToolOracles)
    (parseJson : String → Option Json) (call : ChatCompletionRequest → ChatResponse) :
    ∀ (i : Nat) (req : ChatCompletionRequest),
      tool_loop_nth_request s o parseJson call req (i + 1) =
        tool_loop_nth_request s o parseJson call
          (next_request s o parseJson req (call req).message) i := by
  intro i
  induction i with
  | zero => intro req; rfl
  | succ i ih =>
      intro req
      show next_request s o parseJson (tool_loop_nth_request s o parseJson call req (i + 1))
          (call (tool_loop_nth_request s o parseJson call req (i + 1))).message = _
      rw [ih req]
      rfl

theorem tool_loop_aux_calls_le (s : Settings) (o : ToolOracles)
    (parseJson : String → Option Json) (call : ChatCompletionRequest → ChatResponse) :
    ∀ (fuel : Nat) (req : ChatCompletionRequest),
      (tool_loop_aux s o parseJson call req fuel).2 ≤ fuel := by
  intro fuel
  induction fuel with
  | zero => intro req; simp [tool_loop_aux]
  | succ fuel ih =>
      intro req
      unfold tool_loop_aux
      by_cases h : (call req).message.tool_calls = []
      · rw [if_pos h]
        omega
      · rw [if_neg h]
        have := ih (next_request s o parseJson req (call req).message)
        omega

theorem tool_loop_aux_all_tools (s : Settings) (o : ToolOracles)
    (parseJson : String → Option Json) (call : ChatCompletionRequest → ChatResponse) :
    ∀ (fuel : Nat) (req : ChatCompletionRequest),
      (∀ i, i < fuel →
        (call (tool_loop_nth_request s o parseJson call req i)).message.tool_calls ≠ []) →
      tool_loop_aux s o parseJson call req fuel =
        (Except.error ⟨500, Json.str "tool loop exceeded max_steps", []⟩, fuel) := by
  intro fuel
  induction fuel with
  | zero => intro req h; rfl
  | succ fuel ih =>
      intro req h
      have h0 : (call req).message.tool_calls ≠ [] := h 0 (Nat.succ_pos fuel)
      unfold tool_loop_aux
      rw [if_neg h0]
      have hrest : ∀ i, i < fuel →
          (call (tool_loop_nth_request s o parseJson call
            (next_request s o parseJson req (call req).message) i)).message.tool_calls ≠ [] := by
        intro i hi
        have := h (i + 1) (by omega)
        rw [tool_loop_nth_request_shift] at this
        exact this
      rw [ih _ hrest]

theorem tool_loop_aux_first_done (s : Settings) (o : ToolOracles)
    (parseJson : String → Option Json) (call : ChatCompletionRequest → ChatResponse) :
    ∀ (fuel j : Nat) (req : ChatCompletionRequest), j < fuel →
      (∀ i, i < j →
        (call (tool_loop_nth_request s o parseJson call req i)).message.tool_calls ≠ []) →
      (call (tool_loop_nth_request s o parseJson call req j)).message.tool_calls = [] →
      tool_loop_aux s o parseJson call req fuel =
        (Except.ok (call (tool_loop_nth_request s o parseJson call req j)), j + 1) := by
  intro fuel
  induction fuel with
  | zero => intro j req hj; omega
  | succ fuel ih =>
      intro j req hj hbefore hdone
      cases j with
      | zero =>
          have hdone0 : (call req).message.tool_calls = [] := hdone
          unfold tool_loop_aux
          rw [if_pos hdone0]
          rfl
      | succ j =>
          have h0 : (call req).message.tool_calls ≠ [] := hbefore 0 (Nat.succ_pos j)
          unfold tool_loop_aux
          rw [if_neg h0]
          have hb : ∀ i, i < j →
              (call (tool_loop_nth_request s o parseJson call
                (next_request s o parseJson req (call req).message) i)).message.tool_calls
                ≠ [] := by
            intro i hi
            have := hbefore (i + 1) (by omega)
            rw [tool_loop_nth_request_shift] at this
            exact this
          have hd : (call (tool_loop_nth_request s o parseJson call
              (next_request s o parseJson req (call req).message) j)).message.tool_calls
              = [] := by
            rw [← tool_loop_nth_request_shift]
            exact hdone
          rw [ih j _ (by omega) hb hd]
          rw [tool_loop_nth_request_shift]

/-- C10. The tool loop makes at most 8 upstream chat calls; the next
request appends the assistant message and then one tool message per tool
call, in declaration order, before the next call; if all 8 responses
carry tool calls the loop aborts with HTTP 500
"tool loop exceeded max_steps" after exactly 8 calls, and otherwise the
first response without tool calls is returned after its call. -/
theorem tool_loop_bounded_and_ordered (s : Settings) (o : ToolOracles)
    (parseJson : String → Option Json) (call : ChatCompletionRequest → ChatResponse)
    (req : ChatCompletionRequest) :
    (tool_loop_aux s o parseJson call req 8).2 ≤ 8
    ∧ ((∀ i, i < 8 →
        (call (tool_loop_nth_request s o parseJson call req i)).message.tool_calls ≠ []) →
        tool_loop s o parseJson call req =
          Except.error ⟨500, Json.str "tool loop exceeded max_steps", []⟩
        ∧ (tool_loop_aux s o parseJson call req 8).2 = 8)
    ∧ (∀ j, j < 8 →
        (∀ i, i < j →
          (call (tool_loop_nth_request s o parseJson call req i)).message.tool_calls ≠ []) →
        (call (tool_loop_nth_request s o parseJson call req j)).message.tool_calls = [] →
        tool_loop s o parseJson call req =
          Except.ok (call (tool_loop_nth_request s o parseJson call req j))
        ∧ (tool_loop_aux s o parseJson call req 8).2 = j + 1)
    ∧ (∀ (r : ChatCompletionRequest) (m : UpstreamMsg),
        (next_request s o parseJson r m).messages =
          r.messages ++ [assistantMsg m] ++ m.tool_calls.map (toolMsg s o parseJson)) := by
  refine ⟨tool_loop_aux_calls_le s o parseJson call 8 req, ?_, ?_, fun r m => rfl⟩
  · intro h
    have := tool_loop_aux_all_tools s o parseJson call 8 req h
    unfold tool_loop
    rw [this]
    exact ⟨rfl, rfl⟩
  · intro j hj hb hd
    have := tool_loop_aux_first_done s o parseJson call 8 j req hj hb hd
    unfold tool_loop
    rw [this]
    exact ⟨rfl, rfl⟩

/-- A two-round upstream for the C10 witness: the first call answers with
one tool call, any later call answers without. -/
def exLoopCall : ChatCompletionRequest → ChatResponse := fun r =>
  if r.messages.length = 1 then ⟨⟨"assistant", none, [⟨some "call_1", "nope", ""⟩]⟩⟩
  else ⟨⟨"assistant", some (Json.str "done"), []⟩⟩

/-- The initial one-message request for the C10 witness. -/
def exLoopReq : ChatCompletionRequest :=
  { model := "m", messages := [{ role := "user", content := some (Json.str "q") }] }

/-- Witness for C10: the loop stops at the second response (the first one
without tool calls) after exactly two upstream calls. -/
theorem tool_loop_bounded_and_ordered_witness :
    (tool_loop_aux {} exOracles exParseFail exLoopCall exLoopReq 8).2 ≤ 8
    ∧ tool_loop {} exOracles exParseFail exLoopCall exLoopReq =
        Except.ok ⟨⟨"assistant", some (Json.str "done"), []⟩⟩
    ∧ (tool_loop_aux {} exOracles exParseFail exLoopCall exLoopReq 8).2 = 2 := by
  have h := tool_loop_bounded_and_ordered {} exOracles exParseFail exLoopCall exLoopReq
  have h3 := h.2.2.1 1 (by omega) ?hb ?hd
  case hb =>
    intro i hi
    have hi0 : i = 0 := by omega
    subst hi0
    intro hc
    simp [tool_loop_nth_request, exLoopCall, exLoopReq] at hc
  case hd => rfl
  exact ⟨h.1, h3.1, h3.2⟩
